import Mathlib

/-!
Shallow embedding of the course-access and progress-tracking core of the
backend (app/courses/service.py and app/courses/routes.py, over the tables
declared in app/db/models.py).

Database tables become lists of records; SQLAlchemy `query(...).filter(...).first()`
becomes `List.find?`, `.count()` becomes `List.countP`, and an in-place mutation
of the first matching row becomes `updateFirst`.  `datetime.utcnow()` is passed
in explicitly as a `now : Nat` parameter.  Fallible endpoints return
`Except HTTPError DB`.
-/

/-- A row of the `users` table (app/db/models.py, class User); `role` holds
`user.role.name` of the joined Role row. -/
structure UserR where
  id : Nat
  role : String
  has_premium_access : Bool
  updated_at : Option Nat := none
  deriving Repr, DecidableEq

/-- A row of the `courses` table (app/db/models.py, class Course). -/
structure CourseR where
  id : Nat
  is_premium : Bool
  is_published : Bool
  deriving Repr, DecidableEq

/-- A row of the `lessons` table (app/db/models.py, class Lesson). -/
structure LessonR where
  id : Nat
  course_id : Nat
  is_free : Bool
  is_published : Bool
  deriving Repr, DecidableEq

/-- A row of the `course_enrollments` table (app/db/models.py, class CourseEnrollment). -/
structure EnrollmentR where
  user_id : Nat
  course_id : Nat
  has_access : Bool
  access_granted_date : Option Nat := none
  access_granted_by : Option Nat := none
  progress_percentage : Nat := 0
  completed_lessons : Nat := 0
  last_accessed_at : Option Nat := none
  deriving Repr, DecidableEq

/-- A row of the `lesson_progress` table (app/db/models.py, class LessonProgress). -/
structure LessonProgressR where
  user_id : Nat
  lesson_id : Nat
  is_completed : Bool
  progress_percentage : Nat := 0
  time_spent_seconds : Nat := 0
  last_position_seconds : Nat := 0
  completed_at : Option Nat := none
  updated_at : Option Nat := none
  deriving Repr, DecidableEq

/-- The database state: the five tables the claims touch. -/
structure DB where
  users : List UserR
  courses : List CourseR
  lessons : List LessonR
  enrollments : List EnrollmentR
  progresses : List LessonProgressR
  deriving Repr, DecidableEq

/-- Payload of the progress-update endpoint (app/courses/schemas.py,
class LessonProgressUpdate); its validator keeps `progress_percentage` in 0..100. -/
structure LessonProgressUpdate where
  progress_percentage : Nat := 0
  time_spent_seconds : Nat := 0
  last_position_seconds : Nat := 0
  is_completed : Bool := false
  deriving Repr, DecidableEq

/-- An HTTPException raised by the service or a route. -/
structure HTTPError where
  status_code : Nat
  detail : String
  deriving Repr, DecidableEq

/-- In-place mutation of the first row matching `p` (SQLAlchemy `.first()`
followed by attribute assignment and commit). -/
def updateFirst (p : α → Bool) (f : α → α) : List α → List α
  | [] => []
  | x :: xs => if p x then f x :: xs else x :: updateFirst p f xs

/-- The course query inside `check_user_access` (service.py lines 33-35):
`course and not course.is_premium`. -/
def courseIsFree (db : DB) (course_id : Nat) : Bool :=
  match db.courses.find? (fun c => c.id == course_id) with
  | some course => !course.is_premium
  | none => false

/-- The enrollment query inside `check_user_access` (service.py lines 42-48). -/
def hasActiveEnrollment (db : DB) (user_id course_id : Nat) : Bool :=
  (db.enrollments.find? (fun e =>
    e.user_id == user_id && e.course_id == course_id && e.has_access)).isSome

/-- `CourseService.check_user_access` (service.py lines 14-48). -/
def check_user_access (db : DB) (user_id course_id : Nat) : Bool :=
  match db.users.find? (fun u => u.id == user_id) with
  | none => false
  | some user =>
    if user.role == "admin" then true
    else if courseIsFree db course_id then true
    else if user.has_premium_access then true
    else hasActiveEnrollment db user_id course_id

/-- `CourseService.check_lesson_access` (service.py lines 50-62). -/
def check_lesson_access (db : DB) (user_id lesson_id : Nat) : Bool :=
  match db.lessons.find? (fun l => l.id == lesson_id) with
  | none => false
  | some lesson =>
    if lesson.is_free then true
    else check_user_access db user_id lesson.course_id

/-- Number of enrollment rows for a (user, course) pair. -/
def enrollmentCount (db : DB) (user_id course_id : Nat) : Nat :=
  db.enrollments.countP (fun e => e.user_id == user_id && e.course_id == course_id)

/-- `CourseService.grant_lifetime_access` (service.py lines 64-103): sets the
user's global premium flag and unconditionally appends a sentinel enrollment
row with `course_id = 0`. -/
def grant_lifetime_access (db : DB) (user_id granted_by_user_id now : Nat) :
    Except HTTPError DB :=
  match db.users.find? (fun u => u.id == granted_by_user_id) with
  | none => .error ⟨403, "Solo los administradores pueden otorgar acceso"⟩
  | some granted_by =>
    if granted_by.role != "admin" then
      .error ⟨403, "Solo los administradores pueden otorgar acceso"⟩
    else if (db.users.find? (fun u => u.id == user_id)).isNone then
      .error ⟨404, "Usuario no encontrado"⟩
    else
      .ok { db with
        users := (updateFirst (fun u => u.id == user_id)
          (fun u => { u with has_premium_access := true, updated_at := some now })
          db.users),
        enrollments := (db.enrollments ++
          [{ user_id := user_id, course_id := 0, has_access := true,
             access_granted_date := some now,
             access_granted_by := some granted_by_user_id }]) }

/-- `CourseService.grant_course_access` (service.py lines 105-164): upserts the
enrollment row of (user, course) with `has_access = true`. -/
def grant_course_access (db : DB) (user_id course_id granted_by_user_id now : Nat) :
    Except HTTPError DB :=
  match db.users.find? (fun u => u.id == granted_by_user_id) with
  | none => .error ⟨403, "Solo los administradores pueden otorgar acceso"⟩
  | some granted_by =>
    if granted_by.role != "admin" then
      .error ⟨403, "Solo los administradores pueden otorgar acceso"⟩
    else if (db.courses.find? (fun c => c.id == course_id)).isNone then
      .error ⟨404, "Curso no encontrado"⟩
    else if (db.users.find? (fun u => u.id == user_id)).isNone then
      .error ⟨404, "Usuario no encontrado"⟩
    else if (db.enrollments.find? (fun e =>
        e.user_id == user_id && e.course_id == course_id)).isSome then
      .ok { db with enrollments :=
        (updateFirst (fun e => e.user_id == user_id && e.course_id == course_id)
          (fun e => { e with has_access := true,
                             access_granted_date := some now,
                             access_granted_by := some granted_by_user_id })
          db.enrollments) }
    else
      .ok { db with enrollments := (db.enrollments ++
        [{ user_id := user_id, course_id := course_id, has_access := true,
           access_granted_date := some now,
           access_granted_by := some granted_by_user_id }]) }

/-- `CourseService.revoke_course_access` (service.py lines 166-179): sets
`has_access = false` on the existing row; returns whether a row was found. -/
def revoke_course_access (db : DB) (user_id course_id : Nat) : Bool × DB :=
  if (db.enrollments.find? (fun e =>
      e.user_id == user_id && e.course_id == course_id)).isSome then
    (true, { db with enrollments :=
      (updateFirst (fun e => e.user_id == user_id && e.course_id == course_id)
        (fun e => { e with has_access := false }) db.enrollments) })
  else
    (false, db)

/-- `revoke_course_access_endpoint` (routes.py lines 926-941): raises a 404
HTTPException when the service reports that no enrollment row existed. -/
def revoke_course_access_endpoint (db : DB) (user_id course_id : Nat) :
    Except HTTPError DB :=
  let r := revoke_course_access db user_id course_id
  if r.1 then .ok r.2 else .error ⟨404, "Enrollment no encontrado"⟩

/-- The `total_lessons` query of `CourseService._update_course_progress`
(service.py lines 438-442). -/
def published_lesson_count (db : DB) (course_id : Nat) : Nat :=
  db.lessons.countP (fun l => l.course_id == course_id && l.is_published)

/-- The `completed_lessons` query of `CourseService._update_course_progress`
(service.py lines 447-452): LessonProgress joined with Lesson on the lesson id,
filtered only by user, course and `is_completed` — no `is_published` filter. -/
def course_completed_count (db : DB) (user_id course_id : Nat) : Nat :=
  db.progresses.countP (fun p =>
    p.user_id == user_id && p.is_completed &&
      (match db.lessons.find? (fun l => l.id == p.lesson_id) with
       | some l => l.course_id == course_id
       | none => false))

/-- `CourseService._update_course_progress` (service.py lines 435-467).
Returns early when the course has no published lesson; otherwise rewrites the
existing enrollment row (no row is created when absent).  Python computes
`int((completed / total) * 100)`; on every input appearing in this file the
truncation of that float equals the integer division `completed * 100 / total`
used here. -/
def update_course_progress (db : DB) (user_id course_id now : Nat) : DB :=
  let total := published_lesson_count db course_id
  if total == 0 then db
  else
    let completed := course_completed_count db user_id course_id
    let pct := completed * 100 / total
    { db with enrollments :=
      (updateFirst (fun e => e.user_id == user_id && e.course_id == course_id)
        (fun e => { e with progress_percentage := pct,
                           completed_lessons := completed,
                           last_accessed_at := some now })
        db.enrollments) }

/-- The per-lesson mutation step of `CourseService.update_lesson_progress`
(service.py lines 404-427): the setattr loop over the payload, the
completion step when `progress_percentage >= 100`, and `updated_at = now`. -/
def apply_progress_data (pd : LessonProgressUpdate) (now : Nat)
    (p : LessonProgressR) : LessonProgressR :=
  let p1 := { p with is_completed := pd.is_completed,
                     progress_percentage := pd.progress_percentage,
                     time_spent_seconds := pd.time_spent_seconds,
                     last_position_seconds := pd.last_position_seconds }
  let p2 := if pd.progress_percentage ≥ 100 && !p1.is_completed then
      { p1 with is_completed := true, completed_at := some now }
    else p1
  { p2 with updated_at := some now }

/-- `CourseService.update_lesson_progress` (service.py lines 388-433): 404 when
the lesson does not exist, 403 when `check_user_access` denies the lesson's
course, otherwise upserts the LessonProgress row and then unconditionally calls
`_update_course_progress`. -/
def update_lesson_progress (db : DB) (user_id lesson_id : Nat)
    (pd : LessonProgressUpdate) (now : Nat) : Except HTTPError DB :=
  match db.lessons.find? (fun l => l.id == lesson_id) with
  | none => .error ⟨404, "Lesson not found"⟩
  | some lesson =>
    if !check_user_access db user_id lesson.course_id then
      .error ⟨403, "Access denied to this lesson"⟩
    else
      let db1 :=
        if (db.progresses.find? (fun p =>
            p.user_id == user_id && p.lesson_id == lesson_id)).isSome then
          { db with progresses :=
            (updateFirst (fun p => p.user_id == user_id && p.lesson_id == lesson_id)
              (apply_progress_data pd now) db.progresses) }
        else
          { db with progresses := (db.progresses ++
            [apply_progress_data pd now
              { user_id := user_id, lesson_id := lesson_id, is_completed := false }]) }
      .ok (update_course_progress db1 user_id lesson.course_id now)

/-- The precondition checks of the `mark_lesson_complete` route (routes.py
lines 484-511): 404 unless a published lesson with the id exists, then 403
unless the caller is admin, the lesson is free, or `check_user_access` grants
the lesson's course.  `current_user` is the authenticated User row. -/
def mark_lesson_complete_check (db : DB) (current_user : UserR) (lesson_id : Nat) :
    Option HTTPError :=
  match db.lessons.find? (fun l => l.id == lesson_id && l.is_published) with
  | none => some ⟨404, "Lección no encontrada"⟩
  | some lesson =>
    if !(current_user.role == "admin" || lesson.is_free ||
         check_user_access db current_user.id lesson.course_id) then
      some ⟨403, "No tienes acceso a esta lección"⟩
    else
      none

/-- The state obtained from `db` by overwriting the `is_published` flag of the
course with id `c0` (and nothing else). -/
def setCoursePublished (db : DB) (c0 : Nat) (b : Bool) : DB :=
  { db with courses :=
    (db.courses.map (fun c => if c.id == c0 then { c with is_published := b } else c)) }

/-- An administrator. -/
def uAdmin : UserR := { id := 1, role := "admin", has_premium_access := false }

/-- A regular student without global premium. -/
def uStudent : UserR := { id := 2, role := "alumno", has_premium_access := false }

/-- A premium course. -/
def cPremium : CourseR := { id := 1, is_premium := true, is_published := true }

/-- A non-premium course. -/
def cFree : CourseR := { id := 2, is_premium := false, is_published := true }

/-- State with a student individually enrolled in the premium course. -/
def dbC1 : DB :=
  { users := [uStudent], courses := [cPremium], lessons := [],
    enrollments := [{ user_id := 2, course_id := 1, has_access := true }],
    progresses := [] }

/-- State with a free course and an empty users table. -/
def dbC5 : DB :=
  { users := [], courses := [cFree], lessons := [], enrollments := [],
    progresses := [] }

/-- State with a free course and one student. -/
def dbC5w : DB :=
  { users := [uStudent], courses := [cFree], lessons := [], enrollments := [],
    progresses := [] }

/-- State for progress recomputation: course 1 with three published lessons,
student 2 has completed lessons 1 and 2, and is enrolled. -/
def dbC2a : DB :=
  { users := [uStudent], courses := [cPremium],
    lessons :=
      [{ id := 1, course_id := 1, is_free := false, is_published := true },
       { id := 2, course_id := 1, is_free := false, is_published := true },
       { id := 3, course_id := 1, is_free := false, is_published := true }],
    enrollments := [{ user_id := 2, course_id := 1, has_access := true }],
    progresses :=
      [{ user_id := 2, lesson_id := 1, is_completed := true },
       { user_id := 2, lesson_id := 2, is_completed := true }],
  }

/-- Same state as `dbC2a` but with no enrollment row for (2, 1). -/
def dbC2b : DB := { dbC2a with enrollments := [] }

/-- State where student 2 completed a published lesson and an unpublished
lesson of course 1. -/
def dbC3 : DB :=
  { users := [uStudent], courses := [cPremium],
    lessons :=
      [{ id := 1, course_id := 1, is_free := false, is_published := true },
       { id := 2, course_id := 1, is_free := false, is_published := false }],
    enrollments := [{ user_id := 2, course_id := 1, has_access := true }],
    progresses :=
      [{ user_id := 2, lesson_id := 1, is_completed := true },
       { user_id := 2, lesson_id := 2, is_completed := true }],
  }

/-- A free (preview) lesson inside the premium course. -/
def lFree : LessonR := { id := 1, course_id := 1, is_free := true, is_published := true }

/-- State with the premium course, its free published lesson, and an
unentitled student. -/
def dbC4 : DB :=
  { users := [uStudent], courses := [cPremium], lessons := [lFree],
    enrollments := [], progresses := [] }

/-- A position-update payload below the completion threshold. -/
def pd50 : LessonProgressUpdate := { progress_percentage := 50 }

/-- A non-free published lesson inside the free course. -/
def lC7 : LessonR := { id := 4, course_id := 2, is_free := false, is_published := true }

/-- State where student 2 may view the free course 2 and holds an enrollment
row whose aggregates have never been written. -/
def dbC7 : DB :=
  { users := [uStudent], courses := [cFree], lessons := [lC7],
    enrollments := [{ user_id := 2, course_id := 2, has_access := false }],
    progresses := [] }

/-- State with an administrator (id 1) and a student (id 2). -/
def dbC6 : DB :=
  { users := [uAdmin, uStudent], courses := [cPremium], lessons := [],
    enrollments := [], progresses := [] }

/-- The state produced by the first global-premium grant of `dbC6`. -/
def dbC6one : DB :=
  match grant_lifetime_access dbC6 2 1 10 with
  | Except.ok d => d
  | Except.error _ => dbC6

/-- State with the admin, the unentitled student and the premium course, and
no enrollment rows. -/
def dbC9 : DB :=
  { users := [uAdmin, uStudent], courses := [cPremium], lessons := [],
    enrollments := [], progresses := [] }

/-- The state produced by granting student 2 access to course 1 in `dbC9`. -/
def dbC8one : DB :=
  match grant_course_access dbC9 2 1 1 5 with
  | Except.ok d => d
  | Except.error _ => dbC9

/-- State with only the administrator (who has no global premium flag) and the
premium course; no enrollment rows. -/
def dbC8adm : DB :=
  { users := [uAdmin], courses := [cPremium], lessons := [],
    enrollments := [], progresses := [] }

/-! Generic lemmas about `updateFirst`, `List.find?` and `List.countP`. -/

/-- Updating the first match is the identity when nothing matches. -/
theorem updateFirst_of_find?_eq_none {α} (p : α → Bool) (f : α → α) (l : List α)
    (h : l.find? p = none) : updateFirst p f l = l := by
  induction l with
  | nil => rfl
  | cons x xs ih =>
    by_cases hx : p x
    · rw [List.find?_cons_of_pos _ hx] at h
      exact absurd h (by simp)
    · rw [List.find?_cons_of_neg _ hx] at h
      simp [updateFirst, hx, ih h]

/-- When the update preserves the predicate, `find?` on the updated list is
`find?` on the original list with the update mapped over it. -/
theorem find?_updateFirst {α} (p : α → Bool) (f : α → α)
    (hf : ∀ a, p a = true → p (f a) = true) (l : List α) :
    (updateFirst p f l).find? p = (l.find? p).map f := by
  induction l with
  | nil => rfl
  | cons x xs ih =>
    by_cases hx : p x
    · simp [updateFirst, hx, List.find?, hf x hx]
    · simp [updateFirst, hx, List.find?, ih]

/-- A count by a predicate the update leaves invariant is unchanged. -/
theorem countP_updateFirst {α} (p q : α → Bool) (f : α → α)
    (hq : ∀ a, q (f a) = q a) (l : List α) :
    (updateFirst p f l).countP q = l.countP q := by
  induction l with
  | nil => rfl
  | cons x xs ih =>
    by_cases hx : p x
    · simp [updateFirst, hx, List.countP_cons, hq]
    · simp [updateFirst, hx, List.countP_cons, ih]

/-- If at most one row matches `p`, every `q`-row is a `p`-row, and the update
falsifies `q`, then updating the first `p`-row leaves no `q`-row. -/
theorem countP_updateFirst_eq_zero {α} (p q : α → Bool) (f : α → α)
    (hqp : ∀ a, q a = true → p a = true) (hf : ∀ a, q (f a) = false)
    (l : List α) (h : l.countP p ≤ 1) : (updateFirst p f l).countP q = 0 := by
  induction l with
  | nil => rfl
  | cons x xs ih =>
    by_cases hx : p x
    · have hxs : xs.countP p = 0 := by
        rw [List.countP_cons_of_pos _ _ hx] at h
        omega
      have hq0 : xs.countP q = 0 := by
        rw [List.countP_eq_zero] at hxs ⊢
        intro a ha hqa
        exact hxs a ha (hqp a hqa)
      simp [updateFirst, hx, List.countP_cons, hf, hq0]
    · have hx' : xs.countP p ≤ 1 := by
        rw [List.countP_cons] at h
        omega
      have hqx : q x = false := by
        cases hq : q x
        · rfl
        · exact absurd (hqp x hq) (by simp [hx])
      simp [updateFirst, hx, List.countP_cons, hqx, ih hx']

/-- `find?` commutes with a map that does not move the predicate. -/
theorem find?_map_of_pres {α} (p : α → Bool) (f : α → α)
    (hp : ∀ a, p (f a) = p a) (l : List α) :
    (l.map f).find? p = (l.find? p).map f := by
  induction l with
  | nil => rfl
  | cons x xs ih =>
    by_cases hx : p x
    · simp [List.find?, hx, hp]
    · simp [List.find?, hx, hp, ih]

/-- A list with no `p`-row has `p`-count zero. -/
theorem countP_eq_zero_of_find?_eq_none {α} (p : α → Bool) (l : List α)
    (h : l.find? p = none) : l.countP p = 0 := by
  rw [List.countP_eq_zero]
  rw [List.find?_eq_none] at h
  exact fun a ha => by simpa using h a ha

/-- Helper: searching an appended list when the first part has no match. -/
theorem find?_append_of_none {α} (p : α → Bool) (l₁ l₂ : List α)
    (h : l₁.find? p = none) : (l₁ ++ l₂).find? p = l₂.find? p := by
  induction l₁ with
  | nil => rfl
  | cons x xs ih =>
    by_cases hx : p x
    · rw [List.find?_cons_of_pos _ hx] at h
      exact absurd h (by simp)
    · rw [List.find?_cons_of_neg _ hx] at h
      rw [List.cons_append, List.find?_cons_of_neg _ hx]
      exact ih h

/-- Helper: when the course has a published lesson, the recomputation maps the
row-update over the first enrollment row of (user, course). -/
theorem update_course_progress_find? (db : DB) (uid cid now : Nat)
    (h : published_lesson_count db cid ≠ 0) :
    (update_course_progress db uid cid now).enrollments.find?
        (fun e => e.user_id == uid && e.course_id == cid) =
      (db.enrollments.find? (fun e => e.user_id == uid && e.course_id == cid)).map
        (fun e => { e with
          progress_percentage :=
            course_completed_count db uid cid * 100 / published_lesson_count db cid,
          completed_lessons := course_completed_count db uid cid,
          last_accessed_at := some now }) := by
  unfold update_course_progress
  rw [if_neg (by simp [h])]
  exact find?_updateFirst
    (fun (e : EnrollmentR) => e.user_id == uid && e.course_id == cid)
    (fun e => { e with
      progress_percentage :=
        course_completed_count db uid cid * 100 / published_lesson_count db cid,
      completed_lessons := course_completed_count db uid cid,
      last_accessed_at := some now })
    (fun a ha => ha) db.enrollments

/-- Helper: a successful `grant_course_access` leaves users and courses alone
and either rewrites the first enrollment row of the pair or, when none
existed, appends a fresh one. -/
theorem grant_course_access_ok (db db' : DB) (uid cid gid now : Nat)
    (h : grant_course_access db uid cid gid now = Except.ok db') :
    db'.users = db.users ∧ db'.courses = db.courses ∧
    (((db.enrollments.find? (fun e => e.user_id == uid && e.course_id == cid)).isSome
        = true ∧
      db'.enrollments =
        updateFirst (fun e => e.user_id == uid && e.course_id == cid)
          (fun e => { e with has_access := true, access_granted_date := some now,
                             access_granted_by := some gid }) db.enrollments) ∨
     (db.enrollments.find? (fun e => e.user_id == uid && e.course_id == cid) = none ∧
      db'.enrollments = db.enrollments ++
        [{ user_id := uid, course_id := cid, has_access := true,
           access_granted_date := some now, access_granted_by := some gid }])) := by
  unfold grant_course_access at h
  cases hg : db.users.find? (fun x => x.id == gid) with
  | none => rw [hg] at h; simp at h
  | some g =>
    rw [hg] at h
    simp only [] at h
    by_cases hrole : (g.role != "admin") = true
    · rw [if_pos hrole] at h; simp at h
    · rw [if_neg hrole] at h
      by_cases hcourse : (db.courses.find? (fun c => c.id == cid)).isNone = true
      · rw [if_pos hcourse] at h; simp at h
      · rw [if_neg hcourse] at h
        by_cases huser : (db.users.find? (fun x => x.id == uid)).isNone = true
        · rw [if_pos huser] at h; simp at h
        · rw [if_neg huser] at h
          by_cases hex : (db.enrollments.find? (fun e =>
              e.user_id == uid && e.course_id == cid)).isSome = true
          · rw [if_pos hex] at h
            injection h with h
            rw [← h]
            exact ⟨rfl, rfl, Or.inl ⟨hex, rfl⟩⟩
          · rw [if_neg hex] at h
            injection h with h
            rw [← h]
            refine ⟨rfl, rfl, Or.inr ⟨?_, rfl⟩⟩
            rw [← Option.not_isSome_iff_eq_none]
            exact hex

/-- Helper: a successful `grant_lifetime_access` appends exactly one sentinel
enrollment row with `course_id = 0` and leaves the other tables alone apart
from the user's premium flag. -/
theorem grant_lifetime_access_ok (db db' : DB) (uid gid now : Nat)
    (h : grant_lifetime_access db uid gid now = Except.ok db') :
    db'.courses = db.courses ∧
    db'.enrollments = db.enrollments ++
      [{ user_id := uid, course_id := 0, has_access := true,
         access_granted_date := some now, access_granted_by := some gid }] := by
  unfold grant_lifetime_access at h
  cases hg : db.users.find? (fun x => x.id == gid) with
  | none => rw [hg] at h; simp at h
  | some g =>
    rw [hg] at h
    simp only [] at h
    by_cases hrole : (g.role != "admin") = true
    · rw [if_pos hrole] at h; simp at h
    · rw [if_neg hrole] at h
      by_cases huser : (db.users.find? (fun x => x.id == uid)).isNone = true
      · rw [if_pos huser] at h; simp at h
      · rw [if_neg huser] at h
        injection h with h
        rw [← h]
        exact ⟨rfl, rfl⟩

/-- Helper: access is denied for an existing non-admin user without global
premium on an existing premium course with no active enrollment row. -/
theorem check_user_access_false (db : DB) (uid cid : Nat) (u : UserR) (c : CourseR)
    (hu : db.users.find? (fun x => x.id == uid) = some u)
    (hadm : u.role ≠ "admin") (hprem : u.has_premium_access = false)
    (hc : db.courses.find? (fun x => x.id == cid) = some c)
    (hcp : c.is_premium = true)
    (hact : db.enrollments.find? (fun e =>
      e.user_id == uid && e.course_id == cid && e.has_access) = none) :
    check_user_access db uid cid = false := by
  unfold check_user_access
  simp only [hu]
  have hadm' : (u.role == "admin") = false := by simp [hadm]
  have hfree : courseIsFree db cid = false := by simp [courseIsFree, hc, hcp]
  simp [hadm', hfree, hprem, hasActiveEnrollment, hact]

/-- C1: for an existing user and an existing premium course, access is granted
iff the user is admin, or has global premium, or has an enrollment row with
`has_access = true` for the course; the Boolean equality states the three tiers
in the code's short-circuit order. -/
theorem C1_access_tiers (db : DB) (uid cid : Nat) (u : UserR) (c : CourseR)
    (hu : db.users.find? (fun x => x.id == uid) = some u)
    (hc : db.courses.find? (fun x => x.id == cid) = some c)
    (hp : c.is_premium = true) :
    check_user_access db uid cid =
      (u.role == "admin" || u.has_premium_access || hasActiveEnrollment db uid cid) ∧
    (check_user_access db uid cid = true ↔
      (u.role = "admin" ∨ u.has_premium_access = true ∨
        ∃ e ∈ db.enrollments,
          e.user_id = uid ∧ e.course_id = cid ∧ e.has_access = true)) := by
  have hfree : courseIsFree db cid = false := by
    simp [courseIsFree, hc, hp]
  have hen : hasActiveEnrollment db uid cid = true ↔
      ∃ e ∈ db.enrollments,
        e.user_id = uid ∧ e.course_id = cid ∧ e.has_access = true := by
    simp [hasActiveEnrollment, List.find?_isSome, and_assoc]
  constructor
  · rw [check_user_access, hu]
    by_cases ha : u.role = "admin"
    · simp [ha]
    · have ha' : (u.role == "admin") = false := by simp [ha]
      by_cases hpa : u.has_premium_access <;> simp [ha', hpa, hfree]
  · rw [check_user_access, hu]
    by_cases ha : u.role = "admin"
    · simp [ha]
    · have ha' : (u.role == "admin") = false := by simp [ha]
      by_cases hpa : u.has_premium_access <;> simp [ha', hpa, hfree, ha, hen]

/-- C1 witness: the enrolled student of `dbC1` is decided by the three tiers. -/
theorem C1_access_tiers_witness :
    check_user_access dbC1 2 1 =
      (uStudent.role == "admin" || uStudent.has_premium_access ||
        hasActiveEnrollment dbC1 2 1) :=
  (C1_access_tiers dbC1 2 1 uStudent cPremium (by decide) (by decide) rfl).1

/-- C5 counterexample: `dbC5` holds a non-premium course with id 2, yet a
caller whose user id (7) is not in the users table is denied: the resolver
returns false for missing users before the free-course tier is reached. -/
theorem C5_counterexample :
    ((dbC5.courses.find? (fun c => c.id == 2)).map (fun c => c.is_premium)
      = some false) ∧
    check_user_access dbC5 7 2 = false := by decide

/-- C5 amended: every existing user is granted access to a non-premium course;
a caller not present in the users table is denied. -/
theorem C5_amended (db : DB) (uid cid : Nat) (u : UserR) (c : CourseR)
    (hu : db.users.find? (fun x => x.id == uid) = some u)
    (hc : db.courses.find? (fun x => x.id == cid) = some c)
    (hfree : c.is_premium = false) :
    check_user_access db uid cid = true := by
  rw [check_user_access, hu]
  have hf : courseIsFree db cid = true := by simp [courseIsFree, hc, hfree]
  by_cases ha : u.role == "admin" <;> simp [ha, hf]

/-- C5 amended witness: the student of `dbC5w` may view the free course. -/
theorem C5_amended_witness : check_user_access dbC5w 2 2 = true :=
  C5_amended dbC5w 2 2 uStudent cFree (by decide) (by decide) rfl

/-- C10: resolving course access and lesson access never consults a course's
`is_published` flag: overwriting that flag on any course changes neither
`check_user_access` nor `check_lesson_access` for any caller. -/
theorem C10_publish_flag_irrelevant (db : DB) (c0 : Nat) (b : Bool)
    (uid cid lid : Nat) :
    check_user_access (setCoursePublished db c0 b) uid cid =
      check_user_access db uid cid ∧
    check_lesson_access (setCoursePublished db c0 b) uid lid =
      check_lesson_access db uid lid := by
  have husers : (setCoursePublished db c0 b).users = db.users := rfl
  have henr : (setCoursePublished db c0 b).enrollments = db.enrollments := rfl
  have hles : (setCoursePublished db c0 b).lessons = db.lessons := rfl
  have hfree : ∀ x, courseIsFree (setCoursePublished db c0 b) x = courseIsFree db x := by
    intro x
    unfold courseIsFree
    rw [show (setCoursePublished db c0 b).courses =
        db.courses.map (fun c => if c.id == c0 then { c with is_published := b } else c)
      from rfl]
    rw [find?_map_of_pres (fun (c : CourseR) => c.id == x)
      (fun (c : CourseR) => if c.id == c0 then { c with is_published := b } else c)
      (by intro a; by_cases h : a.id == c0 <;> simp [h])]
    cases db.courses.find? (fun c => c.id == x) with
    | none => rfl
    | some c => by_cases h : c.id = c0 <;> simp [h]
  have hactive : ∀ x y,
      hasActiveEnrollment (setCoursePublished db c0 b) x y =
        hasActiveEnrollment db x y := fun _ _ => rfl
  have hua : ∀ x y, check_user_access (setCoursePublished db c0 b) x y =
      check_user_access db x y := by
    intro x y
    unfold check_user_access
    rw [husers]
    cases db.users.find? (fun u => u.id == x) with
    | none => rfl
    | some u => rw [hfree, hactive]
  refine ⟨hua uid cid, ?_⟩
  unfold check_lesson_access
  rw [hles]
  cases db.lessons.find? (fun l => l.id == lid) with
  | none => rfl
  | some lesson =>
    by_cases h : lesson.is_free <;> simp [h, hua]

/-- C2 counterexample: with 2 of 3 published lessons completed the code writes
`int((2/3)*100) = 66` where the claim's `round(100*2/3)` is 67; and when no
enrollment row exists for the pair, none is created. -/
theorem C2_counterexample :
    (((update_course_progress dbC2a 2 1 9).enrollments.find?
        (fun e => e.user_id == 2 && e.course_id == 1)).map
      (fun e => e.progress_percentage) = some 66) ∧
    round ((100 * 2 : ℚ) / 3) = 67 ∧
    (update_course_progress dbC2b 2 1 9).enrollments = [] := by
  refine ⟨by decide, ?_, by decide⟩
  norm_num [round_eq]

/-- C2 amended: when the course has no published lesson the recomputation
returns without writing anything; otherwise it rewrites the existing
enrollment row of (user, course) — creating none when absent — with
`completed` counted over the user's completed progress rows among all of the
course's lessons and `percentage = ⌊100 * completed / total⌋` (truncating
division, not rounding). -/
theorem C2_amended (db : DB) (uid cid now : Nat) :
    (published_lesson_count db cid = 0 →
      update_course_progress db uid cid now = db) ∧
    (published_lesson_count db cid ≠ 0 →
      (update_course_progress db uid cid now).enrollments.find?
          (fun e => e.user_id == uid && e.course_id == cid) =
        (db.enrollments.find? (fun e => e.user_id == uid && e.course_id == cid)).map
          (fun e => { e with
            progress_percentage :=
              course_completed_count db uid cid * 100 / published_lesson_count db cid,
            completed_lessons := course_completed_count db uid cid,
            last_accessed_at := some now })) := by
  constructor
  · intro h
    unfold update_course_progress
    rw [if_pos (by simp [h])]
  · intro h
    exact update_course_progress_find? db uid cid now h

/-- C2 amended witness: instantiated on a state with no published lesson and
on `dbC2a` where 2 of 3 published lessons are completed. -/
theorem C2_amended_witness :
    update_course_progress dbC5w 2 2 9 = dbC5w ∧
    (update_course_progress dbC2a 2 1 9).enrollments.find?
        (fun e => e.user_id == 2 && e.course_id == 1) =
      (dbC2a.enrollments.find? (fun e => e.user_id == 2 && e.course_id == 1)).map
        (fun e => { e with
          progress_percentage :=
            course_completed_count dbC2a 2 1 * 100 / published_lesson_count dbC2a 1,
          completed_lessons := course_completed_count dbC2a 2 1,
          last_accessed_at := some 9 }) :=
  ⟨(C2_amended dbC5w 2 2 9).1 rfl, (C2_amended dbC2a 2 1 9).2 (by decide)⟩

/-- C3: the completed-lessons query of `_update_course_progress` omits the
`is_published` filter that both its own total-lessons query and the parallel
implementation in routes.py apply, so in `dbC3` (one published and one
unpublished lesson, both completed) it writes `completed_lessons = 2` onto an
enrollment of a course with only 1 published lesson, and
`progress_percentage = 200`, contradicting the 0-100 range documented on the
column. -/
theorem C3_code_bug :
    published_lesson_count dbC3 1 = 1 ∧
    ((update_course_progress dbC3 2 1 9).enrollments.find?
        (fun e => e.user_id == 2 && e.course_id == 1)).map
      (fun e => (e.completed_lessons, e.progress_percentage)) = some (2, 200) := by
  decide

/-- C4 counterexample: lesson 1 of `dbC4` is free, so lesson-level access is
granted to the unentitled student 2, yet `update_lesson_progress` rejects the
mutation with a 403 because it checks course-level access instead. -/
theorem C4_counterexample :
    check_lesson_access dbC4 2 1 = true ∧
    update_lesson_progress dbC4 2 1 pd50 9 =
      Except.error ⟨403, "Access denied to this lesson"⟩ := by
  exact ⟨rfl, rfl⟩

/-- C4 amended: the `mark_lesson_complete` route permits the mutation exactly
when lesson-level access holds (admin, free lesson, or course access), but
`update_lesson_progress` demands course-level access and therefore denies free
lessons of premium courses to users without course entitlement. -/
theorem C4_amended (db : DB) (u : UserR) (lid : Nat) (lesson : LessonR)
    (pd : LessonProgressUpdate) (now : Nat)
    (hu : db.users.find? (fun x => x.id == u.id) = some u)
    (hl : db.lessons.find? (fun l => l.id == lid) = some lesson)
    (hlp : db.lessons.find? (fun l => l.id == lid && l.is_published) = some lesson) :
    (mark_lesson_complete_check db u lid = none ↔
      check_lesson_access db u.id lid = true) ∧
    (update_lesson_progress db u.id lid pd now =
        Except.error ⟨403, "Access denied to this lesson"⟩ ↔
      check_user_access db u.id lesson.course_id = false) := by
  constructor
  · rw [mark_lesson_complete_check, hlp, check_lesson_access, hl]
    by_cases hadm : u.role = "admin"
    · have hcua : check_user_access db u.id lesson.course_id = true := by
        rw [check_user_access, hu]
        simp [hadm]
      by_cases hfree : lesson.is_free <;> simp [hadm, hfree, hcua]
    · have hadm' : (u.role == "admin") = false := by simp [hadm]
      by_cases hfree : lesson.is_free
      · simp [hadm', hfree]
      · cases hcua : check_user_access db u.id lesson.course_id <;>
          simp [hadm', hfree, hcua]
  · rw [update_lesson_progress, hl]
    cases hcua : check_user_access db u.id lesson.course_id <;> simp [hcua]

/-- C4 amended witness: instantiated on `dbC4`, whose free premium lesson is
markable but not position-updatable by the unentitled student. -/
theorem C4_amended_witness :
    (mark_lesson_complete_check dbC4 uStudent 1 = none ↔
      check_lesson_access dbC4 uStudent.id 1 = true) ∧
    (update_lesson_progress dbC4 uStudent.id 1 pd50 9 =
        Except.error ⟨403, "Access denied to this lesson"⟩ ↔
      check_user_access dbC4 uStudent.id lFree.course_id = false) :=
  C4_amended dbC4 uStudent 1 lFree pd50 9 (by decide) (by decide) (by decide)

/-- C7 counterexample: a position update at 50 percent still rewrites the
CourseEnrollment aggregates: `last_accessed_at` flips from `none` to the call
time, so course-level recomputation was triggered below 100 percent. -/
theorem C7_counterexample :
    ((dbC7.enrollments.find? (fun e => e.user_id == 2 && e.course_id == 2)).map
      (fun e => e.last_accessed_at) = some none) ∧
    (update_lesson_progress dbC7 2 4 pd50 9).map
        (fun d => (d.enrollments.find? (fun e => e.user_id == 2 && e.course_id == 2)).map
          (fun e => e.last_accessed_at)) = Except.ok (some (some 9)) := by
  exact ⟨rfl, rfl⟩

/-- C7 amended: `update_lesson_progress` triggers course-level recomputation
unconditionally — for every payload, also below 100 percent: whenever the
course has a published lesson and an enrollment row exists, the call succeeds
and the row's `last_accessed_at` is rewritten to the call time. -/
theorem C7_amended (db : DB) (uid lid now : Nat) (lesson : LessonR)
    (pd : LessonProgressUpdate) (e : EnrollmentR)
    (hl : db.lessons.find? (fun l => l.id == lid) = some lesson)
    (hacc : check_user_access db uid lesson.course_id = true)
    (htot : published_lesson_count db lesson.course_id ≠ 0)
    (he : db.enrollments.find?
      (fun x => x.user_id == uid && x.course_id == lesson.course_id) = some e) :
    (update_lesson_progress db uid lid pd now).map
        (fun d => (d.enrollments.find?
          (fun x => x.user_id == uid && x.course_id == lesson.course_id)).map
            (fun x => x.last_accessed_at)) = Except.ok (some (some now)) := by
  unfold update_lesson_progress
  simp only [hl]
  rw [hacc]
  simp only [Bool.not_true]
  rw [if_neg (by simp : ¬(false = true))]
  simp only [Except.map]
  by_cases hp : (db.progresses.find?
      (fun p => p.user_id == uid && p.lesson_id == lid)).isSome
  · rw [if_pos hp]
    rw [update_course_progress_find?
      { db with progresses :=
        (updateFirst (fun p => p.user_id == uid && p.lesson_id == lid)
          (apply_progress_data pd now) db.progresses) }
      uid lesson.course_id now htot]
    rw [show ({ db with progresses :=
        (updateFirst (fun p => p.user_id == uid && p.lesson_id == lid)
          (apply_progress_data pd now) db.progresses) } : DB).enrollments =
      db.enrollments from rfl]
    rw [he]
    rfl
  · rw [if_neg hp]
    rw [update_course_progress_find?
      { db with progresses := (db.progresses ++
        [apply_progress_data pd now
          { user_id := uid, lesson_id := lid, is_completed := false }]) }
      uid lesson.course_id now htot]
    rw [show ({ db with progresses := (db.progresses ++
        [apply_progress_data pd now
          { user_id := uid, lesson_id := lid, is_completed := false }]) } : DB).enrollments =
      db.enrollments from rfl]
    rw [he]
    rfl

/-- C7 amended witness: instantiated on `dbC7` with the 50-percent payload. -/
theorem C7_amended_witness :
    (update_lesson_progress dbC7 2 4 pd50 9).map
        (fun d => (d.enrollments.find?
          (fun x => x.user_id == 2 && x.course_id == lC7.course_id)).map
            (fun x => x.last_accessed_at)) = Except.ok (some (some 9)) :=
  C7_amended dbC7 2 4 9 lC7 pd50
    { user_id := 2, course_id := 2, has_access := false }
    (by decide) (by decide) (by decide) (by decide)

/-- C6 counterexample: granting global premium to user 2 twice appends two
sentinel enrollment rows for the pair (2, course_id = 0) — the sentinel write
is insert-only, not an upsert. -/
theorem C6_counterexample :
    ((grant_lifetime_access dbC6 2 1 10).bind
      (fun db1 => grant_lifetime_access db1 2 1 11)).map
        (fun db2 => db2.enrollments.countP
          (fun e => e.user_id == 2 && e.course_id == 0)) = Except.ok 2 := by
  rfl

/-- C6 amended: `grant_course_access` has upsert semantics — it preserves
"at most one enrollment row per (user, course) pair" for every pair — but
`grant_lifetime_access` appends a fresh sentinel (user, 0) row on every
successful call, so repeated global-premium grants accumulate duplicates. -/
theorem C6_amended (db : DB) (uid cid gid uid2 gid2 now : Nat) :
    (∀ db', grant_course_access db uid cid gid now = Except.ok db' →
      ∀ u c, enrollmentCount db u c ≤ 1 → enrollmentCount db' u c ≤ 1) ∧
    (∀ db', grant_lifetime_access db uid2 gid2 now = Except.ok db' →
      enrollmentCount db' uid2 0 = enrollmentCount db uid2 0 + 1) := by
  constructor
  · intro db' h u c hle
    rcases (grant_course_access_ok db db' uid cid gid now h).2.2 with
      ⟨_, henr⟩ | ⟨hnone, henr⟩
    · unfold enrollmentCount at hle ⊢
      rw [henr, countP_updateFirst
        (fun (e : EnrollmentR) => e.user_id == uid && e.course_id == cid)
        (fun (e : EnrollmentR) => e.user_id == u && e.course_id == c)
        (fun e => { e with has_access := true, access_granted_date := some now,
                           access_granted_by := some gid })
        (fun a => rfl) db.enrollments]
      exact hle
    · unfold enrollmentCount at hle ⊢
      rw [henr, List.countP_append]
      by_cases huc : uid = u ∧ cid = c
      · obtain ⟨h1, h2⟩ := huc
        subst h1; subst h2
        have h0 : db.enrollments.countP
            (fun e => e.user_id == uid && e.course_id == cid) = 0 :=
          countP_eq_zero_of_find?_eq_none _ _ hnone
        rw [h0]
        simp [List.countP_cons]
      · have h1 : ((uid == u) && (cid == c)) = false := by
          rcases not_and_or.mp huc with h1 | h1 <;> simp [h1]
        simp only [List.countP_cons, List.countP_nil]
        simp [h1]
        omega
  · intro db' h
    have henr := (grant_lifetime_access_ok db db' uid2 gid2 now h).2
    unfold enrollmentCount
    rw [henr, List.countP_append]
    simp [List.countP_cons]

/-- C6 amended witness: one sentinel row appears after the grant on `dbC6`. -/
theorem C6_amended_witness :
    enrollmentCount dbC6one 2 0 = enrollmentCount dbC6 2 0 + 1 :=
  (C6_amended dbC6 2 1 1 2 1 10).2 dbC6one rfl

/-- C9 counterexample: with no enrollment row for (2, 1), the service revoke is
a no-op returning false, and the admin endpoint turns that into a 404 error
response — not a success. -/
theorem C9_counterexample :
    revoke_course_access dbC9 2 1 = (false, dbC9) ∧
    revoke_course_access_endpoint dbC9 2 1 =
      Except.error ⟨404, "Enrollment no encontrado"⟩ := by
  exact ⟨rfl, rfl⟩

/-- C9 amended: revoking a pair with no enrollment row leaves the state
untouched and returns false at the service layer, while the exposed admin
endpoint reports it as a 404 error rather than an idempotent success. -/
theorem C9_amended (db : DB) (uid cid : Nat)
    (h : db.enrollments.find? (fun e => e.user_id == uid && e.course_id == cid)
      = none) :
    revoke_course_access db uid cid = (false, db) ∧
    revoke_course_access_endpoint db uid cid =
      Except.error ⟨404, "Enrollment no encontrado"⟩ := by
  have h1 : revoke_course_access db uid cid = (false, db) := by
    unfold revoke_course_access
    rw [if_neg (by simp [h])]
  refine ⟨h1, ?_⟩
  unfold revoke_course_access_endpoint
  rw [h1]
  rfl

/-- C9 amended witness: instantiated on `dbC9`, whose enrollment table is
empty. -/
theorem C9_amended_witness :
    revoke_course_access dbC9 2 1 = (false, dbC9) ∧
    revoke_course_access_endpoint dbC9 2 1 =
      Except.error ⟨404, "Enrollment no encontrado"⟩ :=
  C9_amended dbC9 2 1 rfl

/-- C8 counterexample: user 1 of `dbC8adm` is an admin whose
`has_premium_access` is false, so the claim's "every user without global
premium" covers them; after grant-then-revoke on the premium course the
resolver still returns true through the admin tier, where the claim demands
false. -/
theorem C8_counterexample :
    uAdmin.has_premium_access = false ∧
    (grant_course_access dbC8adm 1 1 1 5).map (fun db1 =>
        (check_user_access (revoke_course_access db1 1 1).2 1 1,
         ((revoke_course_access db1 1 1).2.enrollments.find?
           (fun e => e.user_id == 1 && e.course_id == 1)).isSome))
      = Except.ok (true, true) := by
  exact ⟨rfl, rfl⟩

/-- C8 amended: granting course access to a NON-admin user without global
premium and then revoking it leaves the premium course inaccessible, while the
enrollment row still exists (it is flipped to `has_access = false`, not
deleted); an admin caller keeps access through the admin tier regardless.  The
`enrollmentCount db uid cid ≤ 1` hypothesis is the at-most-one-row-per-pair
well-formedness of the table, which `grant_course_access` preserves. -/
theorem C8_grant_then_revoke (db db1 : DB) (uid cid gid now : Nat)
    (u : UserR) (c : CourseR)
    (hu : db.users.find? (fun x => x.id == uid) = some u)
    (hadm : u.role ≠ "admin")
    (hprem : u.has_premium_access = false)
    (hc : db.courses.find? (fun x => x.id == cid) = some c)
    (hcp : c.is_premium = true)
    (hcnt : enrollmentCount db uid cid ≤ 1)
    (hg : grant_course_access db uid cid gid now = Except.ok db1) :
    check_user_access (revoke_course_access db1 uid cid).2 uid cid = false ∧
    ((revoke_course_access db1 uid cid).2.enrollments.find?
      (fun e => e.user_id == uid && e.course_id == cid)).isSome = true := by
  obtain ⟨husers, hcourses, hdis⟩ := grant_course_access_ok db db1 uid cid gid now hg
  have hfind : (db1.enrollments.find?
      (fun e => e.user_id == uid && e.course_id == cid)).isSome = true := by
    rcases hdis with ⟨hsome, henr⟩ | ⟨hnone, henr⟩
    · rw [henr, find?_updateFirst
        (fun (e : EnrollmentR) => e.user_id == uid && e.course_id == cid)
        (fun e => { e with has_access := true, access_granted_date := some now,
                           access_granted_by := some gid })
        (fun a ha => ha) db.enrollments]
      simpa using hsome
    · rw [henr, find?_append_of_none _ _ _ hnone]
      simp [List.find?]
  have hcnt1 : db1.enrollments.countP
      (fun e => e.user_id == uid && e.course_id == cid) ≤ 1 := by
    rcases hdis with ⟨hsome, henr⟩ | ⟨hnone, henr⟩
    · rw [henr, countP_updateFirst
        (fun (e : EnrollmentR) => e.user_id == uid && e.course_id == cid)
        (fun (e : EnrollmentR) => e.user_id == uid && e.course_id == cid)
        (fun e => { e with has_access := true, access_granted_date := some now,
                           access_granted_by := some gid })
        (fun a => rfl) db.enrollments]
      exact hcnt
    · rw [henr, List.countP_append,
        countP_eq_zero_of_find?_eq_none _ _ hnone]
      simp [List.countP_cons]
  have hrv : (revoke_course_access db1 uid cid).2 = { db1 with enrollments :=
      (updateFirst (fun e => e.user_id == uid && e.course_id == cid)
        (fun e => { e with has_access := false }) db1.enrollments) } := by
    unfold revoke_course_access
    rw [if_pos hfind]
  rw [hrv]
  have hact : (updateFirst (fun e => e.user_id == uid && e.course_id == cid)
      (fun e => { e with has_access := false }) db1.enrollments).find?
      (fun e => e.user_id == uid && e.course_id == cid && e.has_access) = none := by
    have hq0 : (updateFirst (fun e => e.user_id == uid && e.course_id == cid)
        (fun e => { e with has_access := false }) db1.enrollments).countP
        (fun e => e.user_id == uid && e.course_id == cid && e.has_access) = 0 := by
      refine countP_updateFirst_eq_zero _ _ _ ?_ ?_ db1.enrollments hcnt1
      · intro a ha
        simp at ha ⊢
        exact ha.1
      · intro a
        simp
    rw [List.find?_eq_none]
    intro a ha
    have := List.countP_eq_zero.mp hq0 a ha
    simpa using this
  constructor
  · refine check_user_access_false _ uid cid u c ?_ hadm hprem ?_ hcp hact
    · rw [show ({ db1 with enrollments :=
          (updateFirst (fun e => e.user_id == uid && e.course_id == cid)
            (fun e => { e with has_access := false }) db1.enrollments) } : DB).users
        = db1.users from rfl, husers, hu]
    · rw [show ({ db1 with enrollments :=
          (updateFirst (fun e => e.user_id == uid && e.course_id == cid)
            (fun e => { e with has_access := false }) db1.enrollments) } : DB).courses
        = db1.courses from rfl, hcourses, hc]
  · rw [show ({ db1 with enrollments :=
        (updateFirst (fun e => e.user_id == uid && e.course_id == cid)
          (fun e => { e with has_access := false }) db1.enrollments) } : DB).enrollments
      = (updateFirst (fun e => e.user_id == uid && e.course_id == cid)
          (fun e => { e with has_access := false }) db1.enrollments) from rfl]
    rw [find?_updateFirst
      (fun (e : EnrollmentR) => e.user_id == uid && e.course_id == cid)
      (fun e => { e with has_access := false })
      (fun a ha => ha) db1.enrollments]
    simpa using hfind

/-- C8 witness: grant-then-revoke on `dbC9` denies the student and keeps the
enrollment row. -/
theorem C8_grant_then_revoke_witness :
    check_user_access (revoke_course_access dbC8one 2 1).2 2 1 = false ∧
    ((revoke_course_access dbC8one 2 1).2.enrollments.find?
      (fun e => e.user_id == 2 && e.course_id == 1)).isSome = true :=
  C8_grant_then_revoke dbC9 dbC8one 2 1 1 5 uStudent cPremium
    (by decide) (by decide) rfl (by decide) rfl (by decide) rfl
